import Mathlib

/-!
Verification of the raspi-agent device-trust and streaming pipeline.

Shallow embedding of the Go sources:
* device service (services package, register / enroll),
* JWT utilities and auth middleware,
* voice-assistant orchestration and its HTTP streaming handler,
* Step CA signing adapter,
* RIFF/WAVE recorder output.

External effects (database, crypto randomness, HTTP, wall clock) are passed
in as explicit arguments, so every definition is an executable function of
its inputs.
-/

namespace RaspiAgent

/-! ## Device domain model (internal/core/domain/device.go) -/

/-- Enrollment lifecycle state of a device (DeviceEnrollmentState). -/
inductive DeviceEnrollmentState
  | created
  | enrolled
  | disabled
deriving DecidableEq, Repr

/-- domain.Device.  ID, UserID and OTP are pointers in Go, hence Option. -/
structure Device where
  id : Option String
  userID : Option String
  name : String
  otp : Option String
  enrollmentStatus : DeviceEnrollmentState
deriving DecidableEq, Repr

/-- domain.DeviceRegistration: user-initiated request to register a device. -/
structure DeviceRegistration where
  userID : String
  name : String
deriving DecidableEq, Repr

/-- domain.DeviceRegistrationResult: returned when registration succeeds. -/
structure DeviceRegistrationResult where
  deviceID : String
  userID : String
  name : String
  otp : String
deriving DecidableEq, Repr

/-- domain.DeviceEnrollment: request from a device to enroll. -/
structure DeviceEnrollment where
  csr : String
  deviceID : String
  otp : String
  userID : String
deriving DecidableEq, Repr

/-- domain.CertSignResult: the signed certificate and its chain. -/
structure CertSignResult where
  crt : String
  ca : String
  certChain : List String
deriving DecidableEq, Repr

/-- domain.DeviceEnrollmentResult wraps the CertSignResult. -/
structure DeviceEnrollmentResult where
  certSign : CertSignResult
deriving DecidableEq, Repr

/-- domain.CertSignRequest: CSR plus device id, passed to the cert handler. -/
structure CertSignRequest where
  csr : String
  deviceID : String
deriving DecidableEq, Repr

/-- The slice of the domain.User interface the service layer reads. -/
structure User where
  id : String
  email : String
  provider : String
  password : Option String
deriving DecidableEq, Repr

/-! ## Device service (services package, RegisterDevice / EnrollDevice) -/

/-- passwordCharset from the services package. -/
def passwordCharset : String :=
  "abcdefghijklmnopqrstuvwxyz" ++
  "ABCDEFGHIJKLMNOPQRSTUVWXYZ" ++
  "0123456789" ++
  "!@#$%^&*()-_=+[]\x7b\x7d<>?/|"

/-- generatePassword: builds a password of the given length by repeatedly
drawing a uniform index into passwordCharset.  The crypto/rand stream is
modelled by the argument draws; each draw is reduced into the index range
[0, len charset) exactly as rand.Int bounds it.  A non-positive length is
replaced by 16, as in the source. -/
def generatePassword (draws : Nat → Nat) (length : Int) : String :=
  let len : Nat := if length ≤ 0 then 16 else length.toNat
  String.mk ((List.range len).map
    (fun i => passwordCharset.toList.getD (draws i % passwordCharset.toList.length) 'a'))

/-- The persisted device table; stands for the rows behind deviceRepo. -/
def DeviceRepo := List Device

/-- deviceRepo.Find (persistence package): first row whose id matches,
or a DeviceNotFound-style error. -/
def repoFindDevice (repo : List Device) (id : String) : Except String Device :=
  match repo.find? (fun d => decide (d.id = some id)) with
  | some d => .ok d
  | none => .error ("device " ++ id ++ " not found")

/-- RegisterDevice from the device service.

The collaborating effects are explicit arguments: userFind is the result of
s.userRepo.Find, draws feeds generatePassword, newID is the id the
persistence layer assigns in deviceRepo.Save.  The Go code builds the saved
device with only UserID, OTP and EnrollmentStatus set (Name stays its zero
value ""), and builds the result with only DeviceID, UserID and Name set,
so the result OTP stays its zero value "". -/
def RegisterDevice (userFind : Except String User) (draws : Nat → Nat)
    (newID : String) (reg : DeviceRegistration) (repo : List Device) :
    Except String (DeviceRegistrationResult × List Device) :=
  match userFind with
  | .error e => .error e
  | .ok user =>
    let otp := generatePassword draws 16
    let device : Device :=
      { id := none, userID := some reg.userID, name := "", otp := some otp,
        enrollmentStatus := .created }
    let saved : Device := { device with id := some newID }
    .ok ({ deviceID := newID, userID := user.id, name := saved.name, otp := "" },
      repo ++ [saved])

/-- Outcome of one EnrollDevice call: the returned value, whether the CA
signer (certHandler.Sign) was invoked, and the device table afterwards. -/
structure EnrollOutcome where
  result : Except String DeviceEnrollmentResult
  caCalled : Bool
  repoAfter : List Device
deriving Repr

/-- EnrollDevice from the device service, instrumented with the fact of the
CA call and with the table state after the call.

Control flow follows the source line by line: find the device, require a
device user, require it to be the requesting user, then the OTP guard
written in the source as

  if device.OTP == nil || enr.OTP == *device.OTP \x7b return error \x7d

(note the equality: a matching OTP takes the error branch, a differing one
falls through), then certHandler.Sign.  No branch writes to the repo. -/
def EnrollDevice (repo : List Device) (enr : DeviceEnrollment)
    (sign : CertSignRequest → Except String CertSignResult) : EnrollOutcome :=
  match repoFindDevice repo enr.deviceID with
  | .error e =>
    { result := .error ("failed to find device: " ++ e), caCalled := false,
      repoAfter := repo }
  | .ok device =>
    match device.userID with
    | none =>
      { result := .error "failed to find device user", caCalled := false,
        repoAfter := repo }
    | some uid =>
      if uid ≠ enr.userID then
        { result := .error ("device is not register to the user device id :" ++
            enr.deviceID ++ ", user id: " ++ enr.userID),
          caCalled := false, repoAfter := repo }
      else
        if device.otp = none ∨ some enr.otp = device.otp then
          { result := .error "device OTP is not enrolled", caCalled := false,
            repoAfter := repo }
        else
          match sign { csr := enr.csr, deviceID := enr.deviceID } with
          | .error e =>
            { result := .error ("failed to sign certificate: " ++ e),
              caCalled := true, repoAfter := repo }
          | .ok r =>
            { result := .ok { certSign := r }, caCalled := true,
              repoAfter := repo }

/-! ## Device HTTP handler (internal/http/v1/handler/device.go) -/

/-- deviceRegisterResp: the registration response JSON body. -/
structure DeviceRegisterResp where
  deviceId : String
  userId : String
  name : String
  otp : String
deriving DecidableEq, Repr

/-- Outcome of HandlePostRegisterDevice: an error status, or a 200 with the
serialized body. -/
inductive RegisterHttpOut
  | errorStatus (status : Nat)
  | ok (body : DeviceRegisterResp)
deriving DecidableEq

/-- HandlePostRegisterDevice after a successfully parsed request body:
delegates to the service and maps the result onto deviceRegisterResp,
copying the OTP field of the service result into the otp JSON field. -/
def HandlePostRegisterDevice (userIDPath : String)
    (svc : Except String (DeviceRegistrationResult × List Device)) :
    RegisterHttpOut :=
  match svc with
  | .error _ => .errorStatus 500
  | .ok (device, _) =>
    .ok { otp := device.otp, name := device.name, deviceId := device.deviceID,
          userId := userIDPath }

/-! ## JWT utilities (auth package, GenerateJWT / ParseJWT / UserClaims)

HMAC-SHA256 is modelled symbolically as a perfect MAC: the tag is the pair
of the key and the signed content, so two tags are equal exactly when both
key and content agree.  A token whose signature bytes were altered (for
example one flipped byte) is any token whose sig differs from the MAC that
the verifier recomputes. -/

/-- The JSON payload GenerateJWT signs: the jwt.MapClaims literal with keys
id, email, iss, sub, exp, iat. -/
structure JWTPayload where
  id : String
  email : String
  iss : String
  sub : String
  exp : Int
  iat : Int
deriving DecidableEq, Repr

/-- A MAC tag in the symbolic model: the signing key together with the
signed content (header algorithm plus payload). -/
structure MacTag where
  key : String
  alg : String
  payload : JWTPayload
deriving DecidableEq, Repr

/-- Symbolic HMAC-SHA256 over the token signing input. -/
def hmacSHA256 (key : String) (alg : String) (payload : JWTPayload) : MacTag :=
  { key := key, alg := alg, payload := payload }

/-- A compact serialized JWT: header algorithm, claims, signature. -/
structure Token where
  alg : String
  payload : JWTPayload
  sig : MacTag
deriving DecidableEq, Repr

/-- tokenValidity from the auth package: 24 hours in seconds. -/
def tokenValidity : Int := 60 * 60 * 24

/-- Issuer constant from the auth package. -/
def JWTIssuer : String := "raspi-agent"

/-- UserClaims as filled in by NewUserClaims: Issued = now and
Expires = now + tokenValidity seconds. -/
structure UserClaims where
  id : String
  email : String
  issuer : String
  issued : Int
  expires : Int
deriving DecidableEq, Repr

/-- NewUserClaims(id, email, issuer) evaluated at wall-clock time now. -/
def NewUserClaims (id : String) (email : String) (issuer : String)
    (now : Int) : UserClaims :=
  { id := id, email := email, issuer := issuer, issued := now,
    expires := now + tokenValidity }

/-- GenerateJWT: signs the MapClaims literal with HS256 under key.  The
claims passed in always carry non-zero Issued/Expires (NewUserClaims sets
them), so the zero-value refill branches are identities. -/
def GenerateJWT (key : String) (claims : UserClaims) : Token :=
  let payload : JWTPayload :=
    { id := claims.id, email := claims.email, iss := JWTIssuer,
      sub := claims.id, exp := claims.expires, iat := claims.issued }
  { alg := "HS256", payload := payload, sig := hmacSHA256 key "HS256" payload }

/-- ParseJWT: jwt.ParseWithClaims with WithValidMethods([HS256]) and the
constant keyfunc.  The library rejects, in order: a header algorithm
outside the valid-methods list, a signature that does not verify under the
key, and expired claims (the exp claim is before the verification time).
On success the parsed claims are returned. -/
def ParseJWT (t : Token) (key : String) (now : Int) :
    Except String JWTPayload :=
  if t.alg ≠ "HS256" then .error "token signature is invalid: signing method is invalid"
  else if t.sig ≠ hmacSHA256 key t.alg t.payload then
    .error "token signature is invalid"
  else if t.payload.exp < now then .error "token has invalid claims: token is expired"
  else .ok t.payload

/-! ## Login handler (internal/http/v1/handler/login.go, success path) -/

/-- The token HandleLogin mints once the password of the local user matched:
the source calls auth.NewUserClaims(user.ID(), user.Provider(), auth.Issuer)
— the second argument, which NewUserClaims stores as the email claim, is
the provider tag rather than the address. -/
def HandleLoginToken (jwtKey : String) (user : User) (now : Int) : Token :=
  GenerateJWT jwtKey (NewUserClaims user.id user.provider JWTIssuer now)

/-! ## JWT middleware (internal/middleware/auth.go) -/

/-- The Authorization header of a request, as seen by WithJWT: absent or
empty, present without the Bearer prefix, or a Bearer token. -/
inductive AuthHeader
  | missing
  | malformed (raw : String)
  | bearer (t : Token)

/-- WithJWT: requires a non-empty Authorization header with the Bearer
prefix, then delegates to ParseJWT. -/
def WithJWT (key : String) (now : Int) (h : AuthHeader) :
    Except String JWTPayload :=
  match h with
  | .missing => .error "Authorization header is empty"
  | .malformed _ => .error "Authorization header is invalid"
  | .bearer t => ParseJWT t key now

/-- Observable outcome of one request through the Authenticated middleware:
the status written when authentication fails, and whether the wrapped
handler ran. -/
structure MiddlewareOutcome where
  status : Option Nat
  handlerCalled : Bool
deriving DecidableEq, Repr

/-- Authenticated: on an authentication error writes 401 and stops,
otherwise forwards the request to the wrapped handler. -/
def Authenticated (af : Except String JWTPayload) : MiddlewareOutcome :=
  match af with
  | .error _ => { status := some 401, handlerCalled := false }
  | .ok _ => { status := none, handlerCalled := true }

/-! ## Voice assistant service (internal/core/services/voice_assistant.go)

The provider calls are passed in as explicit functions.  A byte stream is a
list of byte values; a SpeechResult chunk carries the bytes its io.Reader
yields. -/

/-- domain.TranscribeResult. -/
structure TranscribeResult where
  text : String
deriving DecidableEq, Repr

/-- domain.CompletionResult. -/
structure CompletionResult where
  text : String
deriving DecidableEq, Repr

/-- domain.SpeechResult: one chunk of synthesized audio, as the bytes the
reader yields. -/
structure SpeechResult where
  audio : List Nat
deriving DecidableEq, Repr

/-- Assist, sequential part: transcribe, complete, synthesize, each failure
short-circuiting with its wrapped error and a nil channel (the error arm of
Except).  On success the value is the full content of the speech channel in
producer order, which the forwarding goroutine then relays. -/
def Assist (transcribe : Except String TranscribeResult)
    (createCompletion : String → Except String CompletionResult)
    (produceSpeechAudio : String → Except String (List SpeechResult)) :
    Except String (List SpeechResult) :=
  match transcribe with
  | .error e => .error ("failed to transcribe: " ++ e)
  | .ok tr =>
    match createCompletion tr.text with
    | .error e => .error ("failed to create completion: " ++ e)
    | .ok completion =>
      match produceSpeechAudio completion.text with
      | .error e => .error ("failed to produce speech: " ++ e)
      | .ok chunks => .ok chunks

/-- One observable event on the result channel: a chunk delivery or the
(deferred) close of the channel. -/
inductive StreamEvent
  | chunk (audio : List Nat)
  | closed
deriving DecidableEq, Repr

/-- The forwarding goroutine of Assist under a cooperative consumer and an
uncancelled context: the select loop relays each speech chunk to the result
channel in arrival order; when the speech channel closes the loop returns
and the deferred close(resCh) fires. -/
def forwardLoop : List SpeechResult → List StreamEvent
  | [] => [.closed]
  | msg :: rest => .chunk msg.audio :: forwardLoop rest

/-- The streaming loop of HandleAssist: consume the result channel, copying
the bytes of each chunk to the response writer and flushing, until the channel
closes. -/
def streamBody : List StreamEvent → List Nat
  | [] => []
  | .closed :: _ => []
  | .chunk a :: rest => a ++ streamBody rest

/-- Observable HTTP response of HandleAssist: the status (200 implicit on
first body write), the streaming headers if they were set, and the body
bytes written. -/
structure AssistHttpResponse where
  status : Nat
  contentType : Option String
  cacheControl : Option String
  transferEncoding : Option String
  body : List Nat
deriving DecidableEq, Repr

/-- HandleAssist (internal/http/v1/handler, voice assistant) after the
multipart file was saved: calls Assist; on error writes a bare 500 before
any header or body of the stream; on success sets the streaming headers and
relays the channel to the body. -/
def HandleAssist (transcribe : Except String TranscribeResult)
    (createCompletion : String → Except String CompletionResult)
    (produceSpeechAudio : String → Except String (List SpeechResult)) :
    AssistHttpResponse :=
  match Assist transcribe createCompletion produceSpeechAudio with
  | .error _ =>
    { status := 500, contentType := none, cacheControl := none,
      transferEncoding := none, body := [] }
  | .ok chunks =>
    { status := 200, contentType := some "audio/mpeg",
      cacheControl := some "no-cache", transferEncoding := some "chunked",
      body := streamBody (forwardLoop chunks) }

/-! ## Step CA signing adapter (stepca package) -/

/-- Configuration of the enrollProvider. -/
structure EnrollProvider where
  stepCAURL : String
  provisionerToken : String
  provisionerName : String
deriving DecidableEq, Repr

/-- domain.CertEnrollRequest. -/
structure CertEnrollRequest where
  csr : String
deriving DecidableEq, Repr

/-- The JSON body Sign posts to the CA: the map literal
\x7b"csr": req.CSR, "ott": e.provisionerToken\x7d — the ott field is the
static provisioner token from the configuration. -/
structure StepCASignBody where
  csr : String
  ott : String
deriving DecidableEq, Repr

/-- The request body built inside Sign. -/
def stepcaSignBody (e : EnrollProvider) (req : CertEnrollRequest) :
    StepCASignBody :=
  { csr := req.csr, ott := e.provisionerToken }

/-- stepCASignResponse, the decoded CA response body. -/
structure StepCASignResponse where
  crt : String
  ca : String
  certChain : List String
deriving DecidableEq, Repr

/-- Response handling in Sign: any status other than 201 yields the plain
formatted error string carrying the response body; a 201 yields the decoded
fields verbatim. -/
def stepcaHandleResponse (status : Nat) (rawBody : String)
    (decoded : StepCASignResponse) : Except String CertSignResult :=
  if status ≠ 201 then .error ("step CA error: " ++ rawBody)
  else .ok { crt := decoded.crt, ca := decoded.ca,
             certChain := decoded.certChain }

/-- The claims generateOTT would mint (it is defined in the stepca package
but never called from Sign): a fresh nonce id, subject = device CN,
issuer = provisioner name, audience = CA URL, not-before = now,
expiry = now + one minute, SANs = [device CN]. -/
structure OTTClaims where
  id : String
  subject : String
  issuer : String
  notBefore : Int
  expiry : Int
  audience : List String
  sans : List String
deriving DecidableEq, Repr

/-- generateOTT, claim construction, with the wall clock and the random
nonce as explicit inputs. -/
def generateOTT (e : EnrollProvider) (deviceCN : String) (now : Int)
    (nonce : String) : OTTClaims :=
  { id := nonce, subject := deviceCN, issuer := e.provisionerName,
    notBefore := now, expiry := now + 60, audience := [e.stepCAURL],
    sans := [deviceCN] }

/-! ## RIFF/WAVE writer (internal/audio/recorder.go)

Bytes are naturals below 256.  binary.Write with LittleEndian on uint32,
uint16 and []int16 is embedded by explicit little-endian byte splitting;
the Go uint32/uint16 conversions truncate, which the byte splitting
performs implicitly. -/

/-- Little-endian bytes of uint16(n). -/
def u16le (n : Nat) : List Nat := [n % 256, n / 256 % 256]

/-- Little-endian bytes of uint32(n). -/
def u32le (n : Nat) : List Nat :=
  [n % 256, n / 256 % 256, n / 65536 % 256, n / 16777216 % 256]

/-- Little-endian two-complement bytes of an int16 sample. -/
def i16le (s : Int) : List Nat :=
  [(s % 65536).toNat % 256, (s % 65536).toNat / 256]

/-- The ASCII bytes of the "RIFF" tag. -/
def riffHeader : List Nat := [82, 73, 70, 70]

/-- The ASCII bytes of the "WAVE" tag. -/
def waveHeader : List Nat := [87, 65, 86, 69]

/-- The ASCII bytes of the "fmt " tag. -/
def fmtHeader : List Nat := [102, 109, 116, 32]

/-- The ASCII bytes of the "data" tag. -/
def dataHeader : List Nat := [100, 97, 116, 97]

/-- recordingResult: raw PCM data plus metadata. -/
structure RecordingResult where
  data : List Int
  channels : Nat
  chunkSize : Nat
  sampleRate : Nat
deriving DecidableEq, Repr

/-- SaveTo of recordingResult: the bytes written to the io.Writer, in
write order — RIFF tag, riff length, WAVE tag, fmt chunk (size 16, PCM
format 1, channels, sample rate, byte rate, block align, 16 bits), data
tag, data length, then the samples little-endian. -/
def SaveTo (r : RecordingResult) : List Nat :=
  let byteRate := r.sampleRate * r.channels * 2
  let blockAlign := r.channels * 2
  let dataLen := r.data.length * 2
  let riffLen := 36 + dataLen
  riffHeader ++ u32le riffLen ++ waveHeader ++
  fmtHeader ++ u32le 16 ++ u16le 1 ++ u16le r.channels ++
  u32le r.sampleRate ++ u32le byteRate ++ u16le blockAlign ++ u16le 16 ++
  dataHeader ++ u32le dataLen ++ r.data.flatMap i16le

/-- An io.Writer in state σ: consuming bytes yields a new state and
possibly an error.  Arbitrary instances cover writers that fail or
truncate partway through. -/
structure WriterModel (σ : Type) where
  write : σ → List Nat → σ × Option String

/-- SaveTo against an explicit writer, statement for statement: each write
call has its return values discarded and the function returns nil
unconditionally. -/
def SaveToW {σ : Type} (W : WriterModel σ) (s0 : σ) (r : RecordingResult) :
    σ × Option String :=
  let byteRate := r.sampleRate * r.channels * 2
  let blockAlign := r.channels * 2
  let dataLen := r.data.length * 2
  let riffLen := 36 + dataLen
  let s1 := (W.write s0 riffHeader).fst
  let s2 := (W.write s1 (u32le riffLen)).fst
  let s3 := (W.write s2 waveHeader).fst
  let s4 := (W.write s3 fmtHeader).fst
  let s5 := (W.write s4 (u32le 16)).fst
  let s6 := (W.write s5 (u16le 1)).fst
  let s7 := (W.write s6 (u16le r.channels)).fst
  let s8 := (W.write s7 (u32le r.sampleRate)).fst
  let s9 := (W.write s8 (u32le byteRate)).fst
  let s10 := (W.write s9 (u16le blockAlign)).fst
  let s11 := (W.write s10 (u16le 16)).fst
  let s12 := (W.write s11 dataHeader).fst
  let s13 := (W.write s12 (u32le dataLen)).fst
  let s14 := (W.write s13 (r.data.flatMap i16le)).fst
  (s14, none)

/-! ## A standard RIFF/WAVE parser

Modelled from the spec: the reference parser for the round-trip property
(the repository has no reader; this follows the canonical RIFF/WAVE PCM
layout the spec names). -/

/-- A byte parser: consumes a prefix of the input or fails. -/
def P (α : Type) : Type := List Nat → Option (α × List Nat)

/-- Parser that consumes nothing and returns a. -/
def ppure {α : Type} (a : α) : P α := fun bs => some (a, bs)

/-- Sequencing of byte parsers. -/
def pbind {α β : Type} (p : P α) (f : α → P β) : P β := fun bs =>
  match p bs with
  | none => none
  | some (a, rest) => f a rest

instance : Monad P where
  pure := ppure
  bind := pbind

/-- The failing parser. -/
def pfail {α : Type} : P α := fun _ => none

/-- Read one byte. -/
def readByte : P Nat := fun bs =>
  match bs with
  | [] => none
  | b :: rest => some (b, rest)

/-- Require the exact byte sequence expected. -/
def expectBytes (expected : List Nat) : P Unit := fun bs =>
  if bs.take expected.length = expected then some ((), bs.drop expected.length)
  else none

/-- Read a little-endian uint16. -/
def readU16 : P Nat := do
  let b0 ← readByte
  let b1 ← readByte
  pure (b0 + 256 * b1)

/-- Read a little-endian uint32. -/
def readU32 : P Nat := do
  let b0 ← readByte
  let b1 ← readByte
  let b2 ← readByte
  let b3 ← readByte
  pure (b0 + 256 * b1 + 65536 * b2 + 16777216 * b3)

/-- Read a little-endian two-complement int16. -/
def readI16 : P Int := do
  let u ← readU16
  pure (if u < 32768 then (u : Int) else (u : Int) - 65536)

/-- Read the given number of int16 samples. -/
def readSamples : Nat → P (List Int)
  | 0 => ppure []
  | n + 1 => do
    let s ← readI16
    let rest ← readSamples n
    pure (s :: rest)

/-- What the parser recovers: the RIFF size field, the data chunk size
field, and the samples. -/
structure ParsedWAV where
  riffSize : Nat
  dataSize : Nat
  samples : List Int
deriving DecidableEq, Repr

/-- The parse of one canonical PCM WAVE file: RIFF tag, riff size, WAVE
tag, fmt chunk of size 16 with PCM format 1 and 16 bits per sample, data
tag, data size, then exactly dataSize bytes of samples and nothing after
them. -/
def parseWAVrun : P ParsedWAV := do
  expectBytes riffHeader
  let riffSize ← readU32
  expectBytes waveHeader
  expectBytes fmtHeader
  let fmtSize ← readU32
  let audioFormat ← readU16
  let _numChannels ← readU16
  let _sampleRate ← readU32
  let _byteRate ← readU32
  let _blockAlign ← readU16
  let bits ← readU16
  expectBytes dataHeader
  let dataSize ← readU32
  if fmtSize = 16 ∧ audioFormat = 1 ∧ bits = 16 ∧ dataSize % 2 = 0 then
    let samples ← readSamples (dataSize / 2)
    pure { riffSize := riffSize, dataSize := dataSize, samples := samples }
  else
    pfail

/-- Run the parser over a whole file; all bytes must be consumed. -/
def parseWAV (bs : List Nat) : Option ParsedWAV :=
  match parseWAVrun bs with
  | some (v, []) => some v
  | _ => none

/-! ## Concrete fixtures used by the theorems -/

/-- A device table with one registered device awaiting enrollment. -/
def demoRepo : List Device :=
  [{ id := some "dev1", userID := some "user1", name := "Pi",
     otp := some "Otp!234567890abc", enrollmentStatus := .created }]

/-- A CA signer that always succeeds. -/
def demoSign : CertSignRequest → Except String CertSignResult :=
  fun _ => .ok { crt := "LEAF", ca := "CA", certChain := ["LEAF", "CA"] }

/-- A user for the registration and login scenarios. -/
def demoUser : User :=
  { id := "user1", email := "alice@x.io", provider := "local",
    password := some "bcrypt-hash" }

/-- A deterministic stand-in for the crypto/rand draw stream. -/
def demoDraws : Nat → Nat := fun i => i

/-- The device row RegisterDevice persists under demoDraws (the OTP is the
first sixteen charset characters). -/
def demoSaved : Device :=
  { id := some "dev1", userID := some "user1", name := "",
    otp := some "abcdefghijklmnop", enrollmentStatus := .created }

/-- Payload used by the JWT fixtures. -/
def demoPayload : JWTPayload :=
  { id := "u", email := "e", iss := "raspi-agent", sub := "u",
    exp := 100, iat := 0 }

/-- A token whose header algorithm is not HS256. -/
def demoBadAlgToken : Token :=
  { alg := "none", payload := demoPayload,
    sig := hmacSHA256 "k" "none" demoPayload }

/-- A token whose signature bytes were altered: its sig differs from the
MAC the verifier recomputes (in the symbolic model, any altered signature,
for instance one with a flipped byte, is such a value). -/
def demoTamperedToken : Token :=
  { alg := "HS256", payload := demoPayload,
    sig := { key := "k", alg := "HS256",
             payload := { demoPayload with email := "x" } } }

/-- An STT provider call that succeeds. -/
def demoTranscribe : Except String TranscribeResult := .ok { text := "hello" }

/-- An LLM provider call that succeeds. -/
def demoCompletion : String → Except String CompletionResult :=
  fun _ => .ok { text := "reply" }

/-- A TTS producer yielding two chunks. -/
def demoSpeech : String → Except String (List SpeechResult) :=
  fun _ => .ok [{ audio := [1, 2] }, { audio := [3] }]

/-- Step CA adapter configuration for the fixtures. -/
def demoCA : EnrollProvider :=
  { stepCAURL := "https://ca.example:9000",
    provisionerToken := "provisioner-password",
    provisionerName := "raspi-provisioner" }

/-- A writer that reports an error on every write. -/
def failingWriter : WriterModel (List Nat) :=
  { write := fun s _ => (s, some "write failed") }

/-- A short recording covering both int16 endpoints. -/
def demoRecording : RecordingResult :=
  { data := [0, 1, -1, 32767, -32768], channels := 1, chunkSize := 4096,
    sampleRate := 44100 }

/-! ## Theorems -/

/-- C1.  The claim fails on the code: the OTP guard in EnrollDevice is
inverted.  On a device whose stored OTP is present and equal to the
submitted one, EnrollDevice returns the opaque error and never reaches the
CA signer, while a request with a differing OTP falls through the guard
and does call the CA signer successfully. -/
theorem C1_enroll_otp_guard_inverted :
    (EnrollDevice demoRepo
      { csr := "CSR", deviceID := "dev1", otp := "Otp!234567890abc",
        userID := "user1" } demoSign).result
        = .error "device OTP is not enrolled"
    ∧ (EnrollDevice demoRepo
      { csr := "CSR", deviceID := "dev1", otp := "Otp!234567890abc",
        userID := "user1" } demoSign).caCalled = false
    ∧ (EnrollDevice demoRepo
      { csr := "CSR", deviceID := "dev1", otp := "WRONG",
        userID := "user1" } demoSign).caCalled = true
    ∧ (EnrollDevice demoRepo
      { csr := "CSR", deviceID := "dev1", otp := "WRONG",
        userID := "user1" } demoSign).result
        = .ok { certSign := { crt := "LEAF", ca := "CA",
                              certChain := ["LEAF", "CA"] } } := by
  refine ⟨rfl, rfl, rfl, rfl⟩

/-- C2.  The claim fails on the code: after a register step, an enroll with
the freshly issued OTP is rejected by the inverted guard, the device table
is untouched (state stays created, the OTP stays stored, nothing is
cleared), and a repeated enroll with the same OTP behaves identically, so
the OTP is not single-use. -/
theorem C2_otp_never_consumed :
    RegisterDevice (.ok demoUser) demoDraws "dev1"
        { userID := "user1", name := "Pi" } []
      = .ok ({ deviceID := "dev1", userID := "user1", name := "",
               otp := "" }, [demoSaved])
    ∧ (EnrollDevice [demoSaved]
        { csr := "CSR", deviceID := "dev1", otp := "abcdefghijklmnop",
          userID := "user1" } demoSign).result
        = .error "device OTP is not enrolled"
    ∧ (EnrollDevice [demoSaved]
        { csr := "CSR", deviceID := "dev1", otp := "abcdefghijklmnop",
          userID := "user1" } demoSign).repoAfter = [demoSaved]
    ∧ (EnrollDevice [demoSaved]
        { csr := "CSR", deviceID := "dev1", otp := "abcdefghijklmnop",
          userID := "user1" } demoSign).caCalled = false := by
  refine ⟨rfl, rfl, rfl, rfl⟩

/-- C3.  The claim fails on the code: the subject of the login token does equal
the user id and its expiry does lie in the future, but HandleLogin passes
user.Provider() where NewUserClaims expects the email, so the email claim
of the minted token is the provider tag, not the address. -/
theorem C3_login_email_claim_is_provider_tag :
    ParseJWT (HandleLoginToken "secret" demoUser 1000) "secret" 1000
      = .ok { id := "user1", email := "local", iss := "raspi-agent",
              sub := "user1", exp := 1000 + 86400, iat := 1000 }
    ∧ (HandleLoginToken "secret" demoUser 1000).payload.sub = demoUser.id
    ∧ 1000 < (HandleLoginToken "secret" demoUser 1000).payload.exp
    ∧ (HandleLoginToken "secret" demoUser 1000).payload.email
        = demoUser.provider
    ∧ (HandleLoginToken "secret" demoUser 1000).payload.email
        ≠ demoUser.email := by
  refine ⟨rfl, rfl, by decide, rfl, by decide⟩

/-- C4.  The claim fails on the code: RegisterDevice generates a
16-character OTP and stores it on the persisted device, but builds its
result without the OTP field, so the result OTP is the empty string and
the otp field of the HTTP registration response is empty as well. -/
theorem C4_registration_response_otp_empty :
    (generatePassword demoDraws 16).length = 16
    ∧ demoSaved.otp = some (generatePassword demoDraws 16)
    ∧ RegisterDevice (.ok demoUser) demoDraws "dev1"
        { userID := "user1", name := "Pi" } []
      = .ok ({ deviceID := "dev1", userID := "user1", name := "",
               otp := "" }, [demoSaved])
    ∧ HandlePostRegisterDevice "user1"
        (RegisterDevice (.ok demoUser) demoDraws "dev1"
          { userID := "user1", name := "Pi" } [])
      = .ok { deviceId := "dev1", userId := "user1", name := "",
              otp := "" } := by
  refine ⟨rfl, rfl, rfl, rfl⟩

/-- C8.  The claim fails on the code: the POST body Sign builds carries the
static provisioner token from the configuration as its ott field — the
body does not depend on a nonce or on the clock, and generateOTT (which
would mint exactly the short-lived assertion the claim describes) is never
called from Sign.  The 201 path does return the parsed fields verbatim,
and a non-201 status yields a plain formatted error string, not a typed
error value. -/
theorem C8_sign_posts_static_provisioner_token :
    stepcaSignBody demoCA { csr := "CSR-PEM" }
      = { csr := "CSR-PEM", ott := "provisioner-password" }
    ∧ (stepcaSignBody demoCA { csr := "CSR-PEM" }).ott
        = demoCA.provisionerToken
    ∧ generateOTT demoCA "dev1" 1000 "nonce1"
      = { id := "nonce1", subject := "dev1", issuer := "raspi-provisioner",
          notBefore := 1000, expiry := 1060,
          audience := ["https://ca.example:9000"], sans := ["dev1"] }
    ∧ stepcaHandleResponse 403 "unauthorized"
        { crt := "", ca := "", certChain := [] }
      = .error "step CA error: unauthorized"
    ∧ stepcaHandleResponse 201 "ignored"
        { crt := "L", ca := "C", certChain := ["L", "C"] }
      = .ok { crt := "L", ca := "C", certChain := ["L", "C"] } := by
  refine ⟨rfl, rfl, rfl, rfl, rfl⟩

/-- C5.  ParseJWT rejects every token whose header algorithm is not HS256;
it rejects every token whose signature does not verify under the secret
(any altered signature, such as one with a flipped byte, is such a value
in the symbolic MAC model), and behind the Authenticated middleware such a
request gets a 401 without the handler running; and every token minted by
GenerateJWT under the same secret with an unexpired expiry parses
successfully. -/
theorem C5_jwt_validation (key : String) (now : Int) :
    (∀ t : Token, t.alg ≠ "HS256" →
      ParseJWT t key now
        = .error "token signature is invalid: signing method is invalid")
    ∧ (∀ t : Token, t.sig ≠ hmacSHA256 key t.alg t.payload →
        (∃ e, ParseJWT t key now = .error e)
        ∧ Authenticated (WithJWT key now (.bearer t))
            = { status := some 401, handlerCalled := false })
    ∧ (∀ (id email issuer : String) (tnow : Int),
        now ≤ tnow + tokenValidity →
        ParseJWT (GenerateJWT key (NewUserClaims id email issuer tnow)) key now
          = .ok { id := id, email := email, iss := JWTIssuer, sub := id,
                  exp := tnow + tokenValidity, iat := tnow }) := by
  refine ⟨?_, ?_, ?_⟩
  · intro t h
    simp [ParseJWT, h]
  · intro t h
    by_cases ha : t.alg = "HS256"
    · rw [ha] at h
      exact ⟨⟨"token signature is invalid", by simp [ParseJWT, ha, h]⟩,
        by simp [WithJWT, Authenticated, ParseJWT, ha, h]⟩
    · exact ⟨⟨"token signature is invalid: signing method is invalid",
        by simp [ParseJWT, ha]⟩,
        by simp [WithJWT, Authenticated, ParseJWT, ha]⟩
  · intro id email issuer tnow h
    have hexp : ¬ (tnow + tokenValidity < now) := by omega
    simp [GenerateJWT, NewUserClaims, ParseJWT, hexp]

/-- Witness for C5 at concrete tokens: an alg-none token, a token with an
altered signature, and a freshly generated unexpired token. -/
theorem C5_jwt_validation_witness :
    ParseJWT demoBadAlgToken "k" 0
      = .error "token signature is invalid: signing method is invalid"
    ∧ ((∃ e, ParseJWT demoTamperedToken "k" 0 = .error e)
       ∧ Authenticated (WithJWT "k" 0 (.bearer demoTamperedToken))
           = { status := some 401, handlerCalled := false })
    ∧ ParseJWT (GenerateJWT "k" (NewUserClaims "u" "e" "iss" 0)) "k" 0
      = .ok { id := "u", email := "e", iss := JWTIssuer, sub := "u",
              exp := 0 + tokenValidity, iat := 0 } :=
  ⟨(C5_jwt_validation "k" 0).1 demoBadAlgToken (by decide),
   (C5_jwt_validation "k" 0).2.1 demoTamperedToken (by decide),
   (C5_jwt_validation "k" 0).2.2 "u" "e" "iss" 0 (by decide)⟩

/-- The forwarding loop relays the producer chunks in order and then
closes. -/
theorem forwardLoop_eq (l : List SpeechResult) :
    forwardLoop l
      = l.map (fun m => StreamEvent.chunk m.audio) ++ [StreamEvent.closed] := by
  induction l with
  | nil => rfl
  | cons m rest ih => simp [forwardLoop, ih]

/-- The close event appears exactly once in the forwarded stream. -/
theorem forwardLoop_count_closed (l : List SpeechResult) :
    (forwardLoop l).count StreamEvent.closed = 1 := by
  induction l with
  | nil => rfl
  | cons m rest ih => simp [forwardLoop, List.count_cons, ih]

/-- The handler body is the concatenation of the forwarded chunks. -/
theorem streamBody_forwardLoop (l : List SpeechResult) :
    streamBody (forwardLoop l) = l.flatMap (fun m => m.audio) := by
  induction l with
  | nil => rfl
  | cons m rest ih => simp [forwardLoop, streamBody, ih]

/-- C6.  With a cooperative client and an uncancelled context, the events
on the result channel are exactly the producer chunks in producer order
followed by a single close, the close is the last event, and the HTTP body
equals the concatenation of the chunks. -/
theorem C6_chunks_in_order (transcribe : Except String TranscribeResult)
    (cc : String → Except String CompletionResult)
    (ps : String → Except String (List SpeechResult))
    (chunks : List SpeechResult)
    (h : Assist transcribe cc ps = .ok chunks) :
    forwardLoop chunks
      = chunks.map (fun m => StreamEvent.chunk m.audio) ++ [StreamEvent.closed]
    ∧ (forwardLoop chunks).count StreamEvent.closed = 1
    ∧ (forwardLoop chunks).getLast? = some StreamEvent.closed
    ∧ HandleAssist transcribe cc ps
      = { status := 200, contentType := some "audio/mpeg",
          cacheControl := some "no-cache", transferEncoding := some "chunked",
          body := chunks.flatMap (fun m => m.audio) } := by
  refine ⟨forwardLoop_eq chunks, forwardLoop_count_closed chunks, ?_, ?_⟩
  · rw [forwardLoop_eq]
    exact List.getLast?_concat _
  · simp [HandleAssist, h, streamBody_forwardLoop]

/-- Witness for C6 at a two-chunk TTS producer. -/
theorem C6_chunks_in_order_witness :
    forwardLoop [{ audio := [1, 2] }, { audio := [3] }]
      = ([{ audio := [1, 2] }, { audio := [3] }] : List SpeechResult).map
          (fun m => StreamEvent.chunk m.audio) ++ [StreamEvent.closed]
    ∧ (forwardLoop [{ audio := [1, 2] }, { audio := [3] }]).count
        StreamEvent.closed = 1
    ∧ (forwardLoop [{ audio := [1, 2] }, { audio := [3] }]).getLast?
        = some StreamEvent.closed
    ∧ HandleAssist demoTranscribe demoCompletion demoSpeech
      = { status := 200, contentType := some "audio/mpeg",
          cacheControl := some "no-cache", transferEncoding := some "chunked",
          body := ([{ audio := [1, 2] }, { audio := [3] }] :
            List SpeechResult).flatMap (fun m => m.audio) } :=
  C6_chunks_in_order demoTranscribe demoCompletion demoSpeech
    [{ audio := [1, 2] }, { audio := [3] }] rfl

/-- C7.  When the transcription, completion or speech stage fails, Assist
returns the error (and no channel), and the HTTP handler answers with a
bare 500: no streaming header is set and no chunk is written. -/
theorem C7_stage_failure_short_circuits
    (transcribe : Except String TranscribeResult)
    (cc : String → Except String CompletionResult)
    (ps : String → Except String (List SpeechResult))
    (h : (∃ e, transcribe = .error e)
       ∨ (∃ tr e, transcribe = .ok tr ∧ cc tr.text = .error e)
       ∨ (∃ tr cm e, transcribe = .ok tr ∧ cc tr.text = .ok cm
            ∧ ps cm.text = .error e)) :
    (∃ e, Assist transcribe cc ps = .error e)
    ∧ HandleAssist transcribe cc ps
      = { status := 500, contentType := none, cacheControl := none,
          transferEncoding := none, body := [] } := by
  rcases h with ⟨e, he⟩ | ⟨tr, e, htr, he⟩ | ⟨tr, cm, e, htr, hcm, he⟩
  · exact ⟨⟨"failed to transcribe: " ++ e, by simp [Assist, he]⟩,
      by simp [HandleAssist, Assist, he]⟩
  · exact ⟨⟨"failed to create completion: " ++ e,
      by simp [Assist, htr, he]⟩,
      by simp [HandleAssist, Assist, htr, he]⟩
  · exact ⟨⟨"failed to produce speech: " ++ e,
      by simp [Assist, htr, hcm, he]⟩,
      by simp [HandleAssist, Assist, htr, hcm, he]⟩

/-- Witness for C7 at a failing STT provider. -/
theorem C7_stage_failure_witness :
    (∃ e, Assist (.error "stt unavailable") demoCompletion demoSpeech
        = .error e)
    ∧ HandleAssist (.error "stt unavailable") demoCompletion demoSpeech
      = { status := 500, contentType := none, cacheControl := none,
          transferEncoding := none, body := [] } :=
  C7_stage_failure_short_circuits (.error "stt unavailable") demoCompletion
    demoSpeech (Or.inl ⟨"stt unavailable", rfl⟩)

/-- Monad bind on P is pbind. -/
theorem bind_def {α β : Type} (p : P α) (f : α → P β) :
    (p >>= f) = pbind p f := rfl

/-- Monad pure on P is ppure. -/
theorem pure_def {α : Type} (a : α) : (pure a : P α) = ppure a := rfl

/-- Sequencing runs the continuation on the rest of the input. -/
theorem pbind_run {α β : Type} {p : P α} {bs rest : List Nat} {a : α}
    (f : α → P β) (h : p bs = some (a, rest)) :
    pbind p f bs = f a rest := by
  simp [pbind, h]

/-- expectBytes consumes exactly the expected prefix. -/
theorem expectBytes_run (e rest : List Nat) :
    expectBytes e (e ++ rest) = some ((), rest) := by
  simp [expectBytes, List.take_left, List.drop_left]

/-- readU16 recovers the value a u16le encoding wrote, up to the uint16
truncation the encoding performs. -/
theorem readU16_run (n : Nat) (rest : List Nat) :
    readU16 (u16le n ++ rest) = some (n % 65536, rest) := by
  simp [readU16, bind_def, pure_def, pbind, ppure, readByte, u16le]
  omega

/-- readU32 recovers the value a u32le encoding wrote, up to the uint32
truncation the encoding performs. -/
theorem readU32_run (n : Nat) (rest : List Nat) :
    readU32 (u32le n ++ rest) = some (n % 4294967296, rest) := by
  simp [readU32, bind_def, pure_def, pbind, ppure, readByte, u32le]
  omega

/-- readI16 recovers an int16 sample from its i16le encoding. -/
theorem readI16_run (s : Int) (rest : List Nat) (h1 : -32768 ≤ s)
    (h2 : s < 32768) : readI16 (i16le s ++ rest) = some (s, rest) := by
  simp [readI16, readU16, bind_def, pure_def, pbind, ppure, readByte, i16le]
  split <;> omega

/-- readSamples recovers a sample list from its concatenated i16le
encodings. -/
theorem readSamples_run (data : List Int) (rest : List Nat)
    (h : ∀ s ∈ data, -32768 ≤ s ∧ s < 32768) :
    readSamples data.length (data.flatMap i16le ++ rest)
      = some (data, rest) := by
  induction data with
  | nil => simp [readSamples, ppure]
  | cons s tail ih =>
    have hs := h s (by simp)
    have htail : ∀ x ∈ tail, -32768 ≤ x ∧ x < 32768 :=
      fun x hx => h x (by simp [hx])
    have hb : (s :: tail).flatMap i16le ++ rest
        = i16le s ++ (tail.flatMap i16le ++ rest) := by simp
    simp only [List.length_cons, readSamples, bind_def, pure_def, hb]
    rw [pbind_run _ (readI16_run s _ hs.1 hs.2)]
    rw [pbind_run _ (ih htail)]
    rfl

/-- readSamples on exactly the encodings and nothing more. -/
theorem readSamples_run_nil (data : List Int)
    (h : ∀ s ∈ data, -32768 ≤ s ∧ s < 32768) :
    readSamples data.length (data.flatMap i16le) = some (data, []) := by
  have hr := readSamples_run data [] h
  rwa [List.append_nil] at hr

/-- The parser run on a file with the SaveTo layout recovers the riff size
field, the data size field, and the samples. -/
theorem parseWAVrun_layout (riffSize channels rate byteRate blockAlign : Nat)
    (data : List Int) (hdata : ∀ s ∈ data, -32768 ≤ s ∧ s < 32768)
    (hds : data.length * 2 < 4294967296) :
    parseWAVrun (riffHeader ++ u32le riffSize ++ waveHeader ++ fmtHeader ++
      u32le 16 ++ u16le 1 ++ u16le channels ++ u32le rate ++
      u32le byteRate ++ u16le blockAlign ++ u16le 16 ++ dataHeader ++
      u32le (data.length * 2) ++ data.flatMap i16le)
      = some ({ riffSize := riffSize % 4294967296,
                dataSize := data.length * 2, samples := data }, []) := by
  have e4 : data.length * 2 % 4294967296 = data.length * 2 := by omega
  have e5 : data.length * 2 % 2 = 0 := by omega
  have e6 : data.length * 2 / 2 = data.length := by omega
  simp only [List.append_assoc, parseWAVrun, bind_def, pure_def]
  rw [pbind_run _ (expectBytes_run riffHeader _)]
  rw [pbind_run _ (readU32_run riffSize _)]
  rw [pbind_run _ (expectBytes_run waveHeader _)]
  rw [pbind_run _ (expectBytes_run fmtHeader _)]
  rw [pbind_run _ (readU32_run 16 _)]
  rw [pbind_run _ (readU16_run 1 _)]
  rw [pbind_run _ (readU16_run channels _)]
  rw [pbind_run _ (readU32_run rate _)]
  rw [pbind_run _ (readU32_run byteRate _)]
  rw [pbind_run _ (readU16_run blockAlign _)]
  rw [pbind_run _ (readU16_run 16 _)]
  rw [pbind_run _ (expectBytes_run dataHeader _)]
  rw [pbind_run _ (readU32_run (data.length * 2) _)]
  simp only [e4, e5, e6]
  norm_num
  rw [pbind_run _ (readSamples_run_nil data hdata)]
  rfl

/-- C9.  Confirmed: for a recording with positive sample rate, one or two
channels, int16 samples and a data section below the uint32 bound, the
RIFF size field of the SaveTo bytes (as recovered by the reference parser)
is 36 plus twice the sample count, the data size field is twice the sample
count, and parsing recovers exactly the samples. -/
theorem C9_wav_roundtrip (r : RecordingResult) (h1 : 0 < r.sampleRate)
    (h2 : r.channels = 1 ∨ r.channels = 2)
    (h3 : ∀ s ∈ r.data, -32768 ≤ s ∧ s < 32768)
    (h4 : 36 + r.data.length * 2 < 4294967296) :
    parseWAV (SaveTo r)
      = some { riffSize := 36 + r.data.length * 2,
               dataSize := r.data.length * 2, samples := r.data } := by
  have hds : r.data.length * 2 < 4294967296 := by omega
  have hlay := parseWAVrun_layout (36 + r.data.length * 2) r.channels
    r.sampleRate (r.sampleRate * r.channels * 2) (r.channels * 2) r.data h3 hds
  rw [Nat.mod_eq_of_lt h4] at hlay
  simp only [parseWAV, SaveTo]
  rw [hlay]

/-- Witness for C9 at a five-sample mono recording. -/
theorem C9_wav_roundtrip_witness :
    0 < demoRecording.sampleRate
    ∧ (demoRecording.channels = 1 ∨ demoRecording.channels = 2)
    ∧ parseWAV (SaveTo demoRecording)
      = some { riffSize := 36 + demoRecording.data.length * 2,
               dataSize := demoRecording.data.length * 2,
               samples := demoRecording.data } :=
  ⟨by decide, by decide,
   C9_wav_roundtrip demoRecording (by decide) (by decide) (by decide)
     (by decide)⟩

/-- C10.  Confirmed: SaveTo ignores the result of every underlying write
and returns nil for every writer, including one whose writes all fail, so
a failed or truncated save is never reported. -/
theorem C10_saveto_discards_write_errors (r : RecordingResult) :
    (∀ (σ : Type) (W : WriterModel σ) (s : σ), (SaveToW W s r).snd = none)
    ∧ SaveToW failingWriter [] r = ([], none) := by
  exact ⟨fun σ W s => rfl, rfl⟩

end RaspiAgent
